import Mathlib

/-!
Verification development for the Auto-Post bot repository.

The Python sources are shallowly embedded: text is `List Char` (so that
Python string primitives such as `str.replace`, `re.sub`, `str.strip`,
`str.split`, `str.title` can be modelled as executable recursive
functions), Python dictionaries are association lists with first-match
lookup, Python heterogeneous values are the inductive `PyVal`, and
fallible code returns `Except`.  External collaborators (Redis, the
Telegram transport, the PIL image library, network downloads) are
modelled at their interface boundary: Redis as a time-indexed key/value
map honouring `SET key val EX ttl`, image decoding/encoding as a
symbolic term algebra `Img`/`Bytes` that records every PIL operation the
code performs together with its effect on pixel dimensions, and network
fetch capabilities as injected functions.
-/

namespace AutoPost

/-- Python text, embedded as a list of characters. -/
abbrev Str := List Char

/-- Coerce a Lean string literal to the `Str` embedding. -/
def str (s : String) : Str := s.data

/-- Python runtime values that appear in the metadata / settings
dictionaries: strings, integers and `None`. -/
inductive PyVal where
  | vstr (s : Str)
  | vint (n : Int)
  | vnone
deriving DecidableEq

/-- Python `str(v)`: identity on strings, decimal form of integers,
`"None"` for `None`. -/
def pyStr : PyVal → Str
  | PyVal.vstr s => s
  | PyVal.vint n => (toString n).data
  | PyVal.vnone => str "None"

/-- Python truthiness of a `PyVal` (`bool(v)`). -/
def truthy : PyVal → Bool
  | PyVal.vstr s => !s.isEmpty
  | PyVal.vint n => n != 0
  | PyVal.vnone => false

/-- Python `a or b` on values: `a` when truthy, else `b`. -/
def pyOr (a b : PyVal) : PyVal := if truthy a then a else b

/-- View a `PyVal` as a string (the sources only apply string operations
to values that are strings at runtime; `pyStr` covers the rest). -/
def pyvalAsStr (v : PyVal) : Str :=
  match v with
  | PyVal.vstr s => s
  | v => pyStr v

/-- A Python `dict` with `Str` keys, embedded as an association list in
insertion order. -/
abbrev MetaDict := List (Str × PyVal)

/-- `d.get(k, dflt)` for an association-list dictionary. -/
def dictGet {V : Type} (d : List (Str × V)) (k : Str) (dflt : V) : V :=
  match d.find? (fun p => decide (p.1 = k)) with
  | some p => p.2
  | Option.none => dflt

/-- `d[k] = v`: replace the value in place when the key is present
(keeping its position, as Python dicts do), else append the new pair. -/
def dictSet {V : Type} (d : List (Str × V)) (k : Str) (v : V) : List (Str × V) :=
  if d.any (fun p => decide (p.1 = k)) then
    d.map (fun p => if p.1 = k then (k, v) else p)
  else
    d ++ [(k, v)]

/-- `d.update(upd)`: fold `dictSet` over the update pairs in order. -/
def dictUpdate {V : Type} (d upd : List (Str × V)) : List (Str × V) :=
  upd.foldl (fun acc kv => dictSet acc kv.1 kv.2) d

/-- The whitespace class of Python `str.strip` / `str.split()` / `\s`. -/
def isPySpace (c : Char) : Bool :=
  c = ' ' || c = '\t' || c = '\n' || c = '\r' || c = '\x0b' || c = '\x0c'

/-- The character class `\w` of Python regexes (letters, digits,
underscore; the repository only feeds it ASCII titles). -/
def isWordChar (c : Char) : Bool := c.isAlphanum || c = '_'

/-- Python `s.strip()`: drop leading and trailing whitespace. -/
def pyStrip (s : Str) : Str :=
  ((s.dropWhile isPySpace).reverse.dropWhile isPySpace).reverse

/-- Worker for `splitWS`; `acc` holds the current word reversed. -/
def splitWSGo : Str → Str → List Str
  | [], acc => if acc = [] then [] else [acc.reverse]
  | c :: cs, acc =>
    if isPySpace c then
      if acc = [] then splitWSGo cs [] else acc.reverse :: splitWSGo cs []
    else
      splitWSGo cs (c :: acc)

/-- Python `s.split()` with no argument: split on whitespace runs,
dropping empty fields. -/
def splitWS (s : Str) : List Str := splitWSGo s []

/-- Python `s.split(sep)` for a one-character separator, keeping empty
fields (`"a,,b".split(",") == ["a","","b"]`). -/
def pySplitChar (sep : Char) : Str → List Str
  | [] => [[]]
  | c :: cs =>
    let r := pySplitChar sep cs
    if c = sep then [] :: r else (c :: r.headD []) :: r.tail

/-- Worker for `pyTitle`; the flag records whether the previous character
was cased (a letter). -/
def pyTitleGo : Bool → Str → Str
  | _, [] => []
  | prevCased, c :: cs =>
    if c.isAlpha then
      (if prevCased then c.toLower else c.toUpper) :: pyTitleGo true cs
    else
      c :: pyTitleGo false cs

/-- Python `s.title()`: uppercase each cased character that follows an
uncased one, lowercase the other cased characters. -/
def pyTitle (s : Str) : Str := pyTitleGo false s

/-- Locate the first `'}'` in a string: `some (p, r)` means the string is
`p ++ '}' :: r` with no `'}'` inside `p`. -/
def findRBrace : Str → Option (Str × Str)
  | [] => Option.none
  | c :: cs =>
    if c = '}' then some ([], cs)
    else
      match findRBrace cs with
      | some pr => some (c :: pr.1, pr.2)
      | Option.none => Option.none

/-- One-pass state machine equivalent to Python
`re.sub(r"\x7b[^\x7d]+\x7d", "", s)`: a pending `some buf` means we are
inside a potential placeholder opened by `'{'`, whose body so far is
`buf` (free of `'}'`).  A closing `'}'` with a non-empty body deletes the
whole match; with an empty body the regex fails and both braces are kept;
a pending placeholder never closed is emitted verbatim at the end. -/
def scanGo : Option Str → Str → Str
  | Option.none, [] => []
  | some buf, [] => '{' :: buf
  | Option.none, c :: cs =>
    if c = '{' then scanGo (some []) cs else c :: scanGo Option.none cs
  | some buf, c :: cs =>
    if c = '}' then
      if buf = [] then '{' :: '}' :: scanGo Option.none cs else scanGo Option.none cs
    else
      scanGo (some (buf ++ [c])) cs

/-- The placeholder-removal pass of `FormatEngine._substitute`. -/
def scanStrip (s : Str) : Str := scanGo Option.none s

/-- One-pass worker equivalent to Python `re.sub(r"\n\x7b3,\x7d", "\n\n", s)`:
`n` counts the newline run currently pending; a run of three or more
newlines is emitted as exactly two. -/
def collapseGo (n : Nat) : Str → Str
  | [] => List.replicate (if 3 ≤ n then 2 else n) '\n'
  | c :: cs =>
    if c = '\n' then collapseGo (n + 1) cs
    else List.replicate (if 3 ≤ n then 2 else n) '\n' ++ (c :: collapseGo 0 cs)

/-- The newline-collapsing pass of `FormatEngine._substitute`. -/
def collapseNL (s : Str) : Str := collapseGo 0 s

/-- Fuelled worker for `pyReplace`; the fuel starts at the string length
and strictly bounds the number of characters still to be consumed, so the
`0` case is never reached from `pyReplace`. -/
def pyReplaceGo (pat repl : Str) : Nat → Str → Str
  | _, [] => []
  | 0, s => s
  | fuel + 1, c :: cs =>
    if pat ≠ [] ∧ pat.isPrefixOf (c :: cs) = true then
      repl ++ pyReplaceGo pat repl fuel (List.drop (pat.length - 1) cs)
    else
      c :: pyReplaceGo pat repl fuel cs

/-- Python `s.replace(pat, repl)`: replace every non-overlapping
occurrence, scanning left to right. -/
def pyReplace (s pat repl : Str) : Str := pyReplaceGo pat repl s.length s

/-- Python `needle in hay`: contiguous substring test. -/
def pyIn (needle : Str) : Str → Bool
  | [] => needle.isEmpty
  | c :: cs => needle.isPrefixOf (c :: cs) || pyIn needle cs

/-! ## `formatter/engine.py` — the template rendering engine -/

/-- `config.DEFAULT_QUALITY`. -/
def DEFAULT_QUALITY : Str := str "480p | 720p | 1080p"

/-- `config.DEFAULT_AUDIO`. -/
def DEFAULT_AUDIO : Str := str "Hindi | English"

/-- `config.DEFAULT_MOVIE_FORMAT`. -/
def DEFAULT_MOVIE_FORMAT : Str := str
  "🎬 {title} ({year})\n\n┌─ 🌐 Audio        » {audio}\n├─ 🎞️ Quality      » {quality}\n├─ ⭐ IMDb          » {imdb_rating}/10 ({imdb_votes} votes)\n├─ 🎭 Genre        » {genres}\n├─ 🔞 Rating       » {content_rating}\n├─ ⏱️ Runtime      » {runtime}\n└─ 🗓️ Released     » {release_date}\n\n📝 {overview}\n\n{hashtags}\n"

/-- `config.DEFAULT_TV_FORMAT`. -/
def DEFAULT_TV_FORMAT : Str := str
  "📺 {title} ({year})\n\n┌─ 🌐 Audio        » {audio}\n├─ 🎞️ Quality      » {quality}\n├─ ⭐ IMDb          » {imdb_rating}/10 ({imdb_votes} votes)\n├─ 🎭 Genre        » {genres}\n├─ 📡 Status       » {status}\n├─ 🗓️ Seasons      » {seasons}\n├─ 📋 Episodes     » {episodes}\n└─ 🏢 Network      » {network}\n\n📝 {overview}\n\n{hashtags}\n"

/-- `config.DEFAULT_ANIME_FORMAT`. -/
def DEFAULT_ANIME_FORMAT : Str := str
  "🌸 {title}\n\n┌─ 📌 Type         » {type}\n├─ ⭐ MAL Rating    » {rating}%\n├─ 📡 Status       » {status}\n├─ 📋 Episodes     » {episodes}\n├─ 🎭 Genre        » {genres}\n├─ 🎙️ Studio       » {studio}\n└─ 🗓️ Aired        » {aired}\n\n📝 {synopsis}\n\n{hashtags}\n"

/-- `config.DEFAULT_MANHWA_FORMAT`. -/
def DEFAULT_MANHWA_FORMAT : Str := str
  "📖 {title}\n\n┌─ 📌 Type         » {type}\n├─ ⭐ Rating        » {rating}%\n├─ 📡 Status       » {status}\n├─ 📚 Chapters     » {chapters}\n├─ 🎭 Genre        » {genres}\n└─ 🗓️ Published    » {published}\n\n📝 {synopsis}\n\n{hashtags}\n"

/-- `FormatEngine.DEFAULT_TEMPLATES.get(category, "\x7btitle\x7d")`. -/
def defaultTemplate (category : Str) : Str :=
  if category = str "movie" then DEFAULT_MOVIE_FORMAT
  else if category = str "tvshow" then DEFAULT_TV_FORMAT
  else if category = str "anime" then DEFAULT_ANIME_FORMAT
  else if category = str "manhwa" then DEFAULT_MANHWA_FORMAT
  else str "{title}"

/-- `FormatEngine._make_hashtags(title, category, genres)` from
`src/formatter/engine.py` lines 160-176: strip non-word, non-space
characters from the title, join the remaining words with underscores and
title-case; append one fixed category tag; append up to three genre tags
(first three comma-separated entries, stripped, inner spaces removed);
drop empty tags and join with single spaces. -/
def makeHashtags (title category genres : Str) : Str :=
  let clean := title.filter (fun c => isWordChar c || isPySpace c)
  let title_tag := '#' :: pyTitle (List.intercalate (str "_") (splitWS clean))
  let cat_tag :=
    if category = str "movie" then str "#Movie"
    else if category = str "tvshow" then str "#TVShow"
    else if category = str "anime" then str "#Anime"
    else if category = str "manhwa" then str "#Manhwa"
    else []
  let genre_tags := ((pySplitChar ',' genres).take 3).filterMap (fun g0 =>
    let g := pyStrip g0
    if g = [] then Option.none else some ('#' :: g.filter (fun c => ¬ c = ' ')))
  List.intercalate (str " ")
    (([title_tag, cat_tag] ++ genre_tags).filter (fun t => ¬ t = []))

/-- `FormatEngine._build_tokens(category, meta, settings)` from
`src/formatter/engine.py` lines 69-148 (the unused local `rating_src` of
line 80 is omitted).  Values are `PyVal`s; dictionary updates preserve
insertion order exactly as Python dicts do. -/
def build_tokens (category : Str) (meta : MetaDict) (settings : MetaDict) :
    List (Str × PyVal) :=
  let quality := pyOr (dictGet settings (str "quality") PyVal.vnone)
    (PyVal.vstr DEFAULT_QUALITY)
  let audio := pyOr (dictGet settings (str "audio") PyVal.vnone)
    (PyVal.vstr DEFAULT_AUDIO)
  let title := dictGet meta (str "title") (PyVal.vstr (str "Unknown"))
  let raw_genres := pyOr (dictGet meta (str "genres") (PyVal.vstr []))
    (PyVal.vstr [])
  let hashtags := makeHashtags (pyvalAsStr title) category (pyvalAsStr raw_genres)
  let imdb_rating := dictGet meta (str "imdb_rating") PyVal.vnone
  let imdb_str :=
    if truthy imdb_rating then pyStr imdb_rating
    else pyStr (dictGet meta (str "rating") (PyVal.vstr (str "N/A")))
  let base : List (Str × PyVal) := [
    (str "title", title),
    (str "year", dictGet meta (str "year") (PyVal.vstr [])),
    (str "rating", dictGet meta (str "rating") (PyVal.vstr (str "N/A"))),
    (str "imdb_rating", PyVal.vstr imdb_str),
    (str "imdb_votes", dictGet meta (str "imdb_votes") (PyVal.vstr (str "N/A"))),
    (str "imdb_url", dictGet meta (str "imdb_url") (PyVal.vstr [])),
    (str "content_rating", dictGet meta (str "content_rating") (PyVal.vstr (str "N/A"))),
    (str "box_office", dictGet meta (str "box_office") (PyVal.vstr (str "N/A"))),
    (str "awards", dictGet meta (str "awards") (PyVal.vstr (str "N/A"))),
    (str "metacritic", dictGet meta (str "metacritic") (PyVal.vstr (str "N/A"))),
    (str "genres", raw_genres),
    (str "quality", quality),
    (str "audio", audio),
    (str "hashtags", PyVal.vstr hashtags)]
  if category = str "movie" then
    dictUpdate base [
      (str "release_date", dictGet meta (str "release_date") (PyVal.vstr (str "N/A"))),
      (str "overview", dictGet meta (str "overview") (PyVal.vstr (str "N/A"))),
      (str "runtime", dictGet meta (str "runtime") (PyVal.vstr (str "N/A"))),
      (str "status", dictGet meta (str "status") (PyVal.vstr (str "N/A"))),
      (str "tagline", dictGet meta (str "tagline") (PyVal.vstr [])),
      (str "language", dictGet meta (str "language") (PyVal.vstr (str "N/A")))]
  else if category = str "tvshow" then
    dictUpdate base [
      (str "release_date", dictGet meta (str "release_date") (PyVal.vstr (str "N/A"))),
      (str "overview", dictGet meta (str "overview") (PyVal.vstr (str "N/A"))),
      (str "status", dictGet meta (str "status") (PyVal.vstr (str "N/A"))),
      (str "seasons", dictGet meta (str "seasons") (PyVal.vstr (str "N/A"))),
      (str "episodes", dictGet meta (str "episodes") (PyVal.vstr (str "N/A"))),
      (str "network", dictGet meta (str "network") (PyVal.vstr (str "N/A"))),
      (str "language", dictGet meta (str "language") (PyVal.vstr (str "N/A")))]
  else if category = str "anime" then
    let base2 := dictUpdate base [
      (str "title_jp", dictGet meta (str "title_jp") (PyVal.vstr [])),
      (str "synopsis", dictGet meta (str "synopsis") (PyVal.vstr (str "N/A"))),
      (str "status", dictGet meta (str "status") (PyVal.vstr (str "N/A"))),
      (str "episodes", dictGet meta (str "episodes") (PyVal.vstr (str "?"))),
      (str "type", dictGet meta (str "type") (PyVal.vstr (str "TV"))),
      (str "aired", dictGet meta (str "aired") (PyVal.vstr (str "N/A"))),
      (str "studio", dictGet meta (str "studio") (PyVal.vstr (str "N/A"))),
      (str "source", dictGet meta (str "source") (PyVal.vstr (str "N/A"))),
      (str "season", dictGet meta (str "season") (PyVal.vstr (str "N/A")))]
    let r := dictGet meta (str "rating") (PyVal.vint 0)
    dictSet base2 (str "rating") (PyVal.vstr
      (match r with
       | PyVal.vint n => pyStr (PyVal.vint n) ++ str "%"
       | v => pyStr v))
  else if category = str "manhwa" then
    let base2 := dictUpdate base [
      (str "title_native", dictGet meta (str "title_native") (PyVal.vstr [])),
      (str "synopsis", dictGet meta (str "synopsis") (PyVal.vstr (str "N/A"))),
      (str "status", dictGet meta (str "status") (PyVal.vstr (str "N/A"))),
      (str "chapters", dictGet meta (str "chapters") (PyVal.vstr (str "Ongoing"))),
      (str "volumes", dictGet meta (str "volumes") (PyVal.vstr (str "N/A"))),
      (str "type", dictGet meta (str "type") (PyVal.vstr (str "MANHWA"))),
      (str "published", dictGet meta (str "published") (PyVal.vstr (str "N/A")))]
    let r := dictGet meta (str "rating") (PyVal.vint 0)
    dictSet base2 (str "rating") (PyVal.vstr
      (match r with
       | PyVal.vint n => pyStr (PyVal.vint n) ++ str "%"
       | v => pyStr v))
  else base

/-- `str(value) if value is not None else "N/A"` from
`FormatEngine._substitute`. -/
def strOrNA (v : PyVal) : Str :=
  match v with
  | PyVal.vnone => str "N/A"
  | v => pyStr v

/-- The replacement loop of `FormatEngine._substitute`: for each token in
order, replace every literal occurrence of the braced key. -/
def replaceTokens (tokens : List (Str × PyVal)) (tpl : Str) : Str :=
  tokens.foldl (fun result kv =>
    pyReplace result ('{' :: (kv.1 ++ ['}'])) (strOrNA kv.2)) tpl

/-- `FormatEngine._substitute(template, tokens)` from
`src/formatter/engine.py` lines 150-158: token replacement, removal of
leftover placeholders, newline collapsing, final strip. -/
def substitute (template : Str) (tokens : List (Str × PyVal)) : Str :=
  pyStrip (collapseNL (scanStrip (replaceTokens tokens template)))

/-- `FormatEngine.render(category, metadata, template, user_settings)`
from `src/formatter/engine.py` lines 57-67.  `template or DEFAULT...`
falls back to the category default when the override is `None` or empty. -/
def render (category : Str) (metadata : MetaDict) (template : Option Str)
    (user_settings : MetaDict) : Str :=
  let tpl :=
    match template with
    | some t => if t = [] then defaultTemplate category else t
    | Option.none => defaultTemplate category
  let tokens := build_tokens category metadata user_settings
  substitute tpl tokens

/-- `FormatEngine.validate_template(template, category)` from
`src/formatter/engine.py` lines 178-179 (the category is ignored). -/
def validate_template (template : Str) (category : Str) : Bool :=
  pyIn (str "{title}") template

/-! ## `fsm/state_manager.py` — the session state store

The store is modelled with an explicit clock (`now`, in seconds).  The
Redis backend is external to the repository; it is modelled from the
documented semantics of `SET key value EX ttl` / `GET key`: the entry is
visible strictly before its absolute expiry time and absent from then
on.  `redisOk = true` models a configured, non-failing Redis connection;
`redisOk = false` models the in-memory fallback path (`self._redis` is
`None`), which the source implements as a plain dict without expiry. -/

/-- The state of a `StateManager`'s backing storage, keyed by user id. -/
structure SMState (V : Type) where
  redisOk : Bool
  redis : Nat → Option (V × Nat)
  memory : Nat → Option V

/-- `StateManager.set_state(user_id, data, ttl)` at time `now`
(`src/fsm/state_manager.py` lines 29-39).  The Redis path stores the
payload with absolute expiry `now + ttl`; the fallback path stores the
payload in the in-memory dict, ignoring the TTL. -/
def setState {V : Type} (st : SMState V) (now uid : Nat) (data : V) (ttl : Nat) :
    SMState V :=
  if st.redisOk then
    { st with redis := fun k => if k = uid then some (data, now + ttl) else st.redis k }
  else
    { st with memory := fun k => if k = uid then some data else st.memory k }

/-- `StateManager.get_state(user_id)` at time `now`
(`src/fsm/state_manager.py` lines 41-50). -/
def getState {V : Type} (st : SMState V) (now uid : Nat) : Option V :=
  if st.redisOk then
    match st.redis uid with
    | some ve => if now < ve.2 then some ve.1 else Option.none
    | Option.none => Option.none
  else st.memory uid

/-- `StateManager.clear_state(user_id)`
(`src/fsm/state_manager.py` lines 58-67). -/
def clearState {V : Type} (st : SMState V) (uid : Nat) : SMState V :=
  if st.redisOk then
    { st with redis := fun k => if k = uid then Option.none else st.redis k }
  else
    { st with memory := fun k => if k = uid then Option.none else st.memory k }

/-! ## `thumbnail/processor.py` — the image compositor

PIL images are embedded as a symbolic term algebra recording the
operations the source performs; `Img.width`/`Img.height` compute the
pixel dimensions each PIL operation produces.  Font-metric geometry of
the watermark text (pixel coordinates measured via `textbbox`) does not
affect dimensions or control flow and is abstracted inside `DrawOp`.
Encoded byte strings are `Bytes`: an image encoded by `img.save`, valid
externally-produced image bytes, or undecodable junk.  `Image.open`
raises `UnidentifiedImageError` on undecodable input, modelled by
`pilOpen` returning `none` and callers propagating `Except.error`. -/

/-- Drawing operations performed via `ImageDraw` (payload only; they do
not change image dimensions). -/
inductive DrawOp where
  | gradient
  | accentLine
  | pill
  | text (t : Str)
deriving DecidableEq

/-- Pixel modes used by the source. -/
inductive PixMode where
  | rgba
  | rgb
deriving DecidableEq

/-- Symbolic PIL images. -/
inductive Img where
  | new (w h : Nat) (color : Nat × Nat × Nat × Nat)
  | decode (w h id : Nat)
  | resize (i : Img) (w h : Nat)
  | filterBlur (i : Img) (radius : Nat)
  | brightness (i : Img) (pct : Nat)
  | paste (base overlay : Img) (x y : Int) (masked : Bool)
  | alphaComposite (base overlay : Img)
  | convert (i : Img) (mode : PixMode)
  | draw (i : Img) (op : DrawOp)
deriving DecidableEq

/-- Width in pixels of a symbolic image. -/
def Img.width : Img → Nat
  | Img.new w _ _ => w
  | Img.decode w _ _ => w
  | Img.resize _ w _ => w
  | Img.filterBlur i _ => i.width
  | Img.brightness i _ => i.width
  | Img.paste b _ _ _ _ => b.width
  | Img.alphaComposite b _ => b.width
  | Img.convert i _ => i.width
  | Img.draw i _ => i.width

/-- Height in pixels of a symbolic image. -/
def Img.height : Img → Nat
  | Img.new _ h _ => h
  | Img.decode _ h _ => h
  | Img.resize _ _ h => h
  | Img.filterBlur i _ => i.height
  | Img.brightness i _ => i.height
  | Img.paste b _ _ _ _ => b.height
  | Img.alphaComposite b _ => b.height
  | Img.convert i _ => i.height
  | Img.draw i _ => i.height

/-- Encoded byte strings. -/
inductive Bytes where
  | jpegEnc (img : Img) (quality : Nat) (optimize : Bool)
  | ext (w h id : Nat)
  | junk (id : Nat)
deriving DecidableEq

/-- `Image.open(io.BytesIO(b))`: decodes valid image bytes, raises
(`none`) on junk. -/
def pilOpen : Bytes → Option Img
  | Bytes.ext w h id => some (Img.decode w h id)
  | Bytes.jpegEnc i _ _ => some (Img.decode i.width i.height 0)
  | Bytes.junk _ => Option.none

/-- `_add_watermark(img, text)` from `src/thumbnail/processor.py` lines
45-72: no-op on empty text, otherwise alpha-composite a same-size
transparent overlay carrying the pill and the watermark text. -/
def addWatermark (img : Img) (text : Str) : Img :=
  if text = [] then img
  else
    Img.alphaComposite img
      (Img.draw (Img.draw (Img.new img.width img.height (0, 0, 0, 0)) DrawOp.pill)
        (DrawOp.text text))

/-- `_create_banner_card(poster, banner, watermark)` from
`src/thumbnail/processor.py` lines 75-139.  Float arithmetic
(`int(H * 0.82)`, `int(poster_h * 2 / 3)`) is reproduced with exact
integer arithmetic, which agrees with the source on these constants. -/
def createBannerCard (poster : Img) (banner : Option Img) (watermark : Str) : Img :=
  let W : Nat := 1280
  let H : Nat := 720
  let canvas := Img.new W H (15, 15, 20, 255)
  let bg :=
    match banner with
    | some b => Img.resize (Img.convert b PixMode.rgba) W H
    | Option.none => Img.resize (Img.convert poster PixMode.rgba) W H
  let bg := Img.brightness (Img.filterBlur bg 18) 45
  let canvas := Img.paste canvas bg 0 0 false
  let gradient := Img.draw (Img.new W H (0, 0, 0, 0)) DrawOp.gradient
  let canvas := Img.alphaComposite canvas gradient
  let poster_h := H * 82 / 100
  let poster_w := poster_h * 2 / 3
  let poster_x : Int := 60
  let poster_y : Int := ((H : Int) - (poster_h : Int)) / 2
  let poster_resized := Img.resize (Img.convert poster PixMode.rgba) poster_w poster_h
  let shadow_bg := Img.filterBlur (Img.new (poster_w + 20) (poster_h + 20) (0, 0, 0, 180)) 10
  let canvas := Img.paste canvas shadow_bg (poster_x - 5) (poster_y + 5) true
  let canvas := Img.paste canvas poster_resized poster_x poster_y true
  let canvas := Img.draw canvas DrawOp.accentLine
  let canvas := if watermark ≠ [] then addWatermark canvas watermark else canvas
  Img.convert canvas PixMode.rgb

/-- `build_thumbnail(poster_url, backdrop_url, watermark, custom_image)`
from `src/thumbnail/processor.py` lines 142-178.  `dl` is the injected
download capability (`download_image`: `none` on timeout, non-200 or
decode failure).  Empty byte strings (falsy in Python) are covered by
`customImage = none`. -/
def buildThumbnail (dl : Str → Option Img) (posterUrl backdropUrl : Option Str)
    (watermark : Str) (customImage : Option Bytes) : Except Str Bytes :=
  let posterE : Except Str (Option Img) :=
    match customImage with
    | some cb =>
      match pilOpen cb with
      | some i => Except.ok (some (Img.convert i PixMode.rgba))
      | Option.none => Except.error (str "UnidentifiedImageError")
    | Option.none =>
      match posterUrl with
      | some u => if u = [] then Except.ok Option.none else Except.ok (dl u)
      | Option.none => Except.ok Option.none
  match posterE with
  | Except.error e => Except.error e
  | Except.ok posterOpt =>
    let poster :=
      match posterOpt with
      | some p => p
      | Option.none =>
        Img.draw (Img.new 400 600 (30, 30, 40, 255)) (DrawOp.text (str "No Image"))
    let backdrop :=
      match backdropUrl with
      | some u => if u = [] then Option.none else dl u
      | Option.none => Option.none
    let canvas := createBannerCard poster backdrop watermark
    Except.ok (Bytes.jpegEnc canvas 92 true)

/-- `process_custom_thumbnail(photo_bytes, watermark)` from
`src/thumbnail/processor.py` lines 181-196. -/
def processCustomThumbnail (photoBytes : Bytes) (watermark : Str) : Except Str Bytes :=
  match pilOpen photoBytes with
  | Option.none => Except.error (str "UnidentifiedImageError")
  | some i =>
    let img := Img.resize (Img.convert i PixMode.rgba) 1280 720
    let img := if watermark ≠ [] then addWatermark img watermark else img
    let img := Img.convert img PixMode.rgb
    Except.ok (Bytes.jpegEnc img 92 true)

/-! ## `handlers/base.py` and `handlers/template.py` — the conversation
controller

Session payloads are Python dicts of heterogeneous values, embedded as
association lists over `SVal`.  The external MongoDB store is injected
as pure data: the user's settings dict (`get_user_settings`) and the
user's stored templates (`get_template` lookups by name).  The Telegram
transport is modelled by the messages the handlers produce and, for
distribution, by the boolean outcome of `post_to_channel` (which catches
every exception and returns `False`, `src/utils/helpers.py` lines
176-188). -/

/-- Values stored in a session dict. -/
inductive SVal where
  | s (v : Str)
  | b (v : Bool)
  | pynone
  | bytes (v : Bytes)
  | meta (v : MetaDict)
  | results (v : List MetaDict)
deriving DecidableEq

/-- A per-user session payload. -/
abbrev Session := List (Str × SVal)

/-- Python truthiness of a session value. -/
def truthySVal : SVal → Bool
  | SVal.s v => !v.isEmpty
  | SVal.b v => v
  | SVal.pynone => false
  | SVal.bytes _ => true
  | SVal.meta m => !m.isEmpty
  | SVal.results l => !l.isEmpty

/-- View a session value as a string (used where the source assumes one). -/
def svalAsStr : SVal → Str
  | SVal.s v => v
  | _ => []

/-- View a session value as a metadata dict. -/
def svalAsMeta : SVal → MetaDict
  | SVal.meta m => m
  | _ => []

/-- View a session value as bytes. -/
def svalAsBytes : SVal → Bytes
  | SVal.bytes v => v
  | _ => Bytes.junk 0

/-- `StateManager.update_state(user_id, updates)` at time `now`
(`src/fsm/state_manager.py` lines 52-56): merge into the current (or
empty) session, then `set_state` with the default TTL of 600 seconds. -/
def updateState (st : SMState Session) (now uid : Nat) (updates : Session) :
    SMState Session :=
  let current := (getState st now uid).getD []
  setState st now uid (dictUpdate current updates) 600

/-- `Database.get_active_template(user_id, category)` from
`src/database/db.py` lines 144-151, with the user's settings dict and
stored templates injected.  The category argument is unused, as in the
source. -/
def get_active_template (settings : MetaDict) (templates : List (Str × Str))
    (category : Str) : Option Str :=
  let active_name := pyvalAsStr
    (dictGet settings (str "active_template") (PyVal.vstr (str "default")))
  if active_name = str "default" then Option.none
  else
    match templates.find? (fun t => decide (t.1 = active_name)) with
    | some t => some t.2
    | Option.none => Option.none

/-- The thumbnail block of `BaseHandler._build_post`
(`src/handlers/base.py` lines 215-223): the custom image when truthy,
else a composited poster card from the metadata URLs. -/
def buildPostThumb (dl : Str → Option Img) (watermark : Str) (meta : MetaDict)
    (custom_image : SVal) : Except Str Bytes :=
  if truthySVal custom_image then
    processCustomThumbnail (svalAsBytes custom_image) watermark
  else
    buildThumbnail dl
      (match dictGet meta (str "poster") PyVal.vnone with
       | PyVal.vstr s => some s
       | PyVal.vnone => Option.none
       | v => some (pyStr v))
      (match pyOr (dictGet meta (str "backdrop") PyVal.vnone)
          (dictGet meta (str "banner") PyVal.vnone) with
       | PyVal.vstr s => some s
       | PyVal.vnone => Option.none
       | v => some (pyStr v))
      watermark Option.none

/-- `BaseHandler._build_post(user_id, state)` from `src/handlers/base.py`
lines 199-231: render the caption from the session metadata and the
DB-active template, rebuild the thumbnail (custom image if truthy, else
composited poster card), then re-store both in the session. -/
def buildPost (st : SMState Session) (now uid : Nat) (settings : MetaDict)
    (templates : List (Str × Str)) (dl : Str → Option Img) (category : Str)
    (sess : Session) : Except Str (SMState Session × Bytes × Str) :=
  let meta := svalAsMeta (dictGet sess (str "meta") (SVal.meta []))
  let custom_image := dictGet sess (str "custom_image") SVal.pynone
  let watermark := pyvalAsStr (dictGet settings (str "watermark") (PyVal.vstr []))
  let template_body := get_active_template settings templates category
  let caption := render category meta template_body settings
  match buildPostThumb dl watermark meta custom_image with
  | Except.error e => Except.error e
  | Except.ok thumb_bytes =>
    let st' := updateState st now uid
      [(str "caption", SVal.s caption), (str "thumb_bytes", SVal.bytes thumb_bytes)]
    Except.ok (st', thumb_bytes, caption)

/-- The override-swap step of `BaseHandler._on_template_selected`
(`src/handlers/base.py` lines 284-296): store the selected template body
(or `None` for default) under `active_template_override` in the session;
an unknown name leaves the store untouched. -/
def overrideStore (st : SMState Session) (now uid : Nat) (tplName : Str)
    (templates : List (Str × Str)) : SMState Session :=
  if tplName = str "default" then
    updateState st now uid [(str "active_template_override", SVal.pynone)]
  else
    match templates.find? (fun t => decide (t.1 = tplName)) with
    | some tpl => updateState st now uid
        [(str "active_template_override", SVal.s tpl.2)]
    | Option.none => st

/-- `BaseHandler._on_template_selected` (`src/handlers/base.py` lines
284-298) followed by `_show_preview` (lines 161-181): after the override
swap (`overrideStore`), rebuild the preview via `_build_post`.  Returns
the updated store and, when a session exists, the freshly built
`(image bytes, caption)` pair. -/
def onTemplateSelected (st : SMState Session) (now uid : Nat) (tplName : Str)
    (settings : MetaDict) (templates : List (Str × Str)) (dl : Str → Option Img)
    (category : Str) : Except Str (SMState Session × Option (Bytes × Str)) :=
  let st1 := overrideStore st now uid tplName templates
  match getState st1 now uid with
  | Option.none => Except.ok (st1, Option.none)
  | some sess =>
    match buildPost st1 now uid settings templates dl category sess with
    | Except.error e => Except.error e
    | Except.ok (st2, tb, cap) => Except.ok (st2, some (tb, cap))

/-- `BaseHandler._on_select` (`src/handlers/base.py` lines 107-131) with
the detail-fetch outcome injected: on a falsy result (fetch failure) the
session store is untouched and an error is reported; on success the full
metadata record is stored and the thumbnail step begins. -/
def onSelect (st : SMState Session) (now uid : Nat) (fetched : Option MetaDict) :
    SMState Session × Str :=
  match fetched with
  | Option.none => (st, str "❌ Failed to fetch details. Try again.")
  | some meta =>
    if meta = [] then (st, str "❌ Failed to fetch details. Try again.")
    else
      (updateState st now uid
        [(str "meta", SVal.meta meta), (str "awaiting_thumbnail", SVal.b true)],
       str "🖼 Custom Thumbnail")

/-- Outcome of a `_on_post_channel` invocation. -/
structure ChannelOutcome where
  store : SMState Session
  message : Str
  incremented : Bool

/-- `BaseHandler._on_post_channel` (`src/handlers/base.py` lines 233-260)
with the distribution outcome injected as `postOk` (the boolean
`post_to_channel` returns; it never raises).  Accessing the session on a
missing state would raise `AttributeError` in Python, modelled as
`Except.error`. -/
def onPostChannel (st : SMState Session) (now uid : Nat) (settings : MetaDict)
    (postOk : Bool) : Except Str ChannelOutcome :=
  let state? := getState st now uid
  let channel_id := dictGet settings (str "channel_id") PyVal.vnone
  if truthy channel_id = false then
    Except.ok ⟨st, str "⚠️ No channel set! Use /settings → Set Channel first.", false⟩
  else
    match state? with
    | Option.none => Except.error (str "AttributeError")
    | some state =>
      let _caption := svalAsStr (dictGet state (str "caption") (SVal.s []))
      let _thumb := svalAsBytes (dictGet state (str "thumb_bytes") (SVal.bytes (Bytes.junk 0)))
      if postOk then
        Except.ok ⟨clearState st uid, str "✅ Posted to channel!", true⟩
      else
        Except.ok ⟨st,
          str "❌ Failed to post. Make sure the bot is admin in your channel.", false⟩

/-- Outcome of a `TemplateHandler.handle_text` invocation. -/
structure TplOutcome where
  store : SMState Session
  saved : Option (Str × Str)
  activated : Option Str
  message : Str

/-- `TemplateHandler.handle_text` (`src/handlers/template.py` lines
109-156): the template-builder wizard.  In the body step the (stripped)
text is persisted and activated only when it contains the literal
`\x7btitle\x7d` token; otherwise it is rejected with a user-visible
message and nothing changes.  `state.get` on a missing session raises
`AttributeError` in Python, modelled as `Except.error`. -/
def handleText (st : SMState Session) (now uid : Nat) (rawText : Str) :
    Except Str TplOutcome :=
  match getState st now uid with
  | Option.none => Except.error (str "AttributeError")
  | some state =>
    let text := pyStrip rawText
    if truthySVal (dictGet state (str "awaiting_template_name") SVal.pynone) then
      if 32 < text.length ∨ ' ' ∈ text then
        Except.ok ⟨st, Option.none, Option.none,
          str "❌ Name must be under 32 chars and no spaces. Try again:"⟩
      else
        Except.ok ⟨updateState st now uid
            [(str "awaiting_template_name", SVal.b false),
             (str "awaiting_template_body", SVal.b true),
             (str "template_name", SVal.s text)],
          Option.none, Option.none, str "✅ Name set"⟩
    else if truthySVal (dictGet state (str "awaiting_template_body") SVal.pynone) then
      let name := svalAsStr (dictGet state (str "template_name") (SVal.s (str "unnamed")))
      if pyIn (str "{title}") text = false then
        Except.ok ⟨st, Option.none, Option.none,
          str "⚠️ Template must contain at least {title}. Try again:"⟩
      else
        Except.ok ⟨clearState st uid, some (name, text), some name,
          str "✅ Template saved and activated!"⟩
    else
      Except.ok ⟨st, Option.none, Option.none, []⟩

/-! ## Auxiliary lemmas -/

/-- Watermarking never changes the width. -/
theorem addWatermark_width (i : Img) (t : Str) : (addWatermark i t).width = i.width := by
  unfold addWatermark
  split <;> rfl

/-- Watermarking never changes the height. -/
theorem addWatermark_height (i : Img) (t : Str) : (addWatermark i t).height = i.height := by
  unfold addWatermark
  split <;> rfl

/-- The banner card is always 1280 pixels wide. -/
theorem createBannerCard_width (p : Img) (b : Option Img) (w : Str) :
    (createBannerCard p b w).width = 1280 := by
  simp only [createBannerCard]
  split <;> simp [Img.width, addWatermark_width]

/-- The banner card is always 720 pixels tall. -/
theorem createBannerCard_height (p : Img) (b : Option Img) (w : Str) :
    (createBannerCard p b w).height = 720 := by
  simp only [createBannerCard]
  split <;> simp [Img.height, addWatermark_height]

/-- `pyIn` decides contiguous-substring containment. -/
theorem pyIn_decides_substring (needle hay : Str) :
    pyIn needle hay = true ↔ needle <:+: hay := by
  induction hay with
  | nil =>
    simp only [pyIn, List.isEmpty_iff]
    constructor
    · rintro rfl
      exact List.infix_rfl
    · intro h
      exact List.eq_nil_of_infix_nil h
  | cons c cs ih =>
    simp only [pyIn, Bool.or_eq_true, List.isPrefixOf_iff_prefix, ih,
      List.infix_cons_iff]

/-! ## Claim C3 — hashtag derivation on the worked example -/

/-- C3 (counterexample): on title `"Dr. Strange!"`, category `movie` and
genres `"Action, Adventure, Fantasy, Drama"`, the hashtag derivation does
NOT return the claimed string `"#DrStrange #Movie #Action #Adventure
#Fantasy"`: the source joins the title words with underscores
(`"_".join(clean.split()).title()`), so the title tag keeps its
underscore. -/
theorem c3_counterexample :
    makeHashtags (str "Dr. Strange!") (str "movie")
      (str "Action, Adventure, Fantasy, Drama")
      ≠ str "#DrStrange #Movie #Action #Adventure #Fantasy" := by decide

/-- C3 (amended): the hashtag derivation on that input returns
`"#Dr_Strange #Movie #Action #Adventure #Fantasy"` — first three genres
only, punctuation stripped from the title, spaces in genre tags removed,
but the title words joined with an underscore rather than concatenated. -/
theorem c3_hashtags_example :
    makeHashtags (str "Dr. Strange!") (str "movie")
      (str "Action, Adventure, Fantasy, Drama")
      = str "#Dr_Strange #Movie #Action #Adventure #Fantasy" := by decide

/-! ## Claim C4 — session TTL -/

/-- C4 (counterexample): a state written with TTL = 1 second through the
in-memory fallback backend (`self._redis` is `None`) is still returned
by `get_state` four seconds after expiry: the fallback dict ignores the
TTL entirely, so the claim fails for the local backend. -/
theorem c4_counterexample :
    getState
      (setState (⟨false, fun _ => Option.none, fun _ => Option.none⟩ : SMState Session)
        0 1 [(str "x", SVal.b true)] 1)
      5 1 = some [(str "x", SVal.b true)] := rfl

/-- C4 (amended): a state written with any positive TTL is present
immediately after the write on either backend, and it is absent after
the TTL has expired when the networked (Redis) backend served the
write; the local fallback retains it indefinitely. -/
theorem c4_ttl_amended {V : Type} (st : SMState V) (now t' uid : Nat) (v : V)
    (ttl : Nat) (hpos : 0 < ttl) :
    getState (setState st now uid v ttl) now uid = some v ∧
    (st.redisOk = true → now + ttl ≤ t' →
      getState (setState st now uid v ttl) t' uid = Option.none) := by
  constructor
  · by_cases h : st.redisOk
    · simp only [setState, getState, h, if_true]
      rw [if_pos (by omega)]
    · simp [setState, getState, h]
  · intro h ht
    simp only [setState, getState, h, if_true]
    rw [if_neg (by omega)]

/-- C4 (witness): the amended theorem applied to a concrete Redis-backed
store, user 1, write at time 0 with TTL 1, read back at times 0 and 2. -/
theorem c4_ttl_witness :
    getState
      (setState (⟨true, fun _ => Option.none, fun _ => Option.none⟩ : SMState Session)
        0 1 [(str "x", SVal.b true)] 1) 0 1 = some [(str "x", SVal.b true)] ∧
    ((⟨true, fun _ => Option.none, fun _ => Option.none⟩ : SMState Session).redisOk = true →
      0 + 1 ≤ 2 →
      getState
        (setState (⟨true, fun _ => Option.none, fun _ => Option.none⟩ : SMState Session)
          0 1 [(str "x", SVal.b true)] 1) 2 1 = Option.none) :=
  c4_ttl_amended ⟨true, fun _ => Option.none, fun _ => Option.none⟩ 0 2 1
    [(str "x", SVal.b true)] 1 (by decide)

/-! ## Claim C10 — `update_state` silently renews the default TTL -/

/-- C10: on the Redis backend, `update_state` re-stores the merged
session via `set_state` with the default TTL of 600 seconds — whatever
TTL the entry was originally written with and however much of it
remained, after the update the entry is visible exactly until
`now + 600`. -/
theorem c10_update_renews_ttl (st : SMState Session) (now t' uid : Nat)
    (upd : Session) (h : st.redisOk = true) :
    getState (updateState st now uid upd) t' uid =
      if t' < now + 600 then some (dictUpdate ((getState st now uid).getD []) upd)
      else Option.none := by
  simp only [updateState, setState, getState, h, if_true]

/-- C10 (witness): a store whose entry for user 1 was written with an
expiry long past (time 3), updated at time 10: the merged session is
visible at time 609 (< 10 + 600) even though the original TTL expired
seven seconds before the update. -/
theorem c10_update_witness :
    getState
      (updateState
        (⟨true, fun k => if k = 1 then some ([(str "y", SVal.b false)], 3) else Option.none,
          fun _ => Option.none⟩ : SMState Session) 10 1 [(str "x", SVal.b true)])
      609 1 =
      if 609 < 10 + 600 then
        some (dictUpdate
          ((getState
            (⟨true, fun k => if k = 1 then some ([(str "y", SVal.b false)], 3) else Option.none,
              fun _ => Option.none⟩ : SMState Session) 10 1).getD [])
          [(str "x", SVal.b true)])
      else Option.none :=
  c10_update_renews_ttl
    ⟨true, fun k => if k = 1 then some ([(str "y", SVal.b false)], 3) else Option.none,
      fun _ => Option.none⟩ 10 609 1 [(str "x", SVal.b true)] rfl

/-! ## Claim C7 — select on fetch failure -/

/-- C7: when the detail fetch of a `select` transition fails (returns
`None`, or a falsy empty record), the handler reports an error message
and the session store is completely unchanged: `searchResults` stay
intact, no `meta` is stored, `awaiting_thumbnail` is not set, and the
implicit state does not advance past `SELECTING`. -/
theorem c7_select_failure_preserves_state (st : SMState Session) (now uid : Nat)
    (fetched : Option MetaDict) (h : fetched = Option.none ∨ fetched = some []) :
    onSelect st now uid fetched = (st, str "❌ Failed to fetch details. Try again.") := by
  rcases h with h | h <;> subst h <;> simp [onSelect]

/-- C7 (witness): the theorem applied to a concrete store and a failed
fetch. -/
theorem c7_select_witness :
    onSelect (⟨false, fun _ => Option.none,
        fun k => if k = 1 then some [(str "search_results", SVal.results [[]])] else Option.none⟩ :
        SMState Session) 0 1 Option.none =
      (⟨false, fun _ => Option.none,
        fun k => if k = 1 then some [(str "search_results", SVal.results [[]])] else Option.none⟩,
       str "❌ Failed to fetch details. Try again.") :=
  c7_select_failure_preserves_state _ 0 1 Option.none (Or.inl rfl)

/-! ## Claim C8 — distribute failure -/

/-- C8: when the distribution capability reports failure (the boolean
result of `post_to_channel`, which catches every transport exception and
returns `False`), `_on_post_channel` returns normally (no exception),
reports a user-visible failure message, does not increment the post
count, and leaves the session store — including the stored rendered
caption and image bytes — completely unchanged, so the implicit state
remains `PREVIEW`. -/
theorem c8_distribute_failure_preserves_state (st : SMState Session) (now uid : Nat)
    (settings : MetaDict) (sess : Session)
    (hch : truthy (dictGet settings (str "channel_id") PyVal.vnone) = true)
    (hs : getState st now uid = some sess) :
    onPostChannel st now uid settings false =
      Except.ok ⟨st, str "❌ Failed to post. Make sure the bot is admin in your channel.",
        false⟩ := by
  simp [onPostChannel, hch, hs]

/-- C8 (witness): the theorem applied to a concrete preview session with
a configured channel. -/
theorem c8_distribute_witness :
    onPostChannel
      (⟨false, fun _ => Option.none,
        fun k => if k = 1 then
          some [(str "caption", SVal.s (str "c")),
                (str "thumb_bytes", SVal.bytes (Bytes.junk 7))]
        else Option.none⟩ : SMState Session)
      0 1 [(str "channel_id", PyVal.vint (-100))] false =
      Except.ok ⟨⟨false, fun _ => Option.none,
        fun k => if k = 1 then
          some [(str "caption", SVal.s (str "c")),
                (str "thumb_bytes", SVal.bytes (Bytes.junk 7))]
        else Option.none⟩,
        str "❌ Failed to post. Make sure the bot is admin in your channel.", false⟩ :=
  c8_distribute_failure_preserves_state _ 0 1 _
    [(str "caption", SVal.s (str "c")), (str "thumb_bytes", SVal.bytes (Bytes.junk 7))]
    (by decide) rfl

/-! ## Claim C9 — compositor output geometry -/

/-- C9 (counterexample): on arbitrary user-supplied bytes that do not
decode as an image, `process_custom_thumbnail` raises
(`Image.open` throws `UnidentifiedImageError`) instead of returning a
1280×720 image, so the claim fails as stated for arbitrary bytes. -/
theorem c9_counterexample :
    processCustomThumbnail (Bytes.junk 0) [] =
      Except.error (str "UnidentifiedImageError") := rfl

/-- C9 (amended): for every download capability, poster/backdrop URL and
watermark, `build_thumbnail` (without custom bytes, as the controller
calls it) returns a JPEG encoded at quality 92 whose image is exactly
1280×720 — download failures and absent URLs degrade to the placeholder
panel — and `process_custom_thumbnail` does the same for every
user-supplied byte string that decodes as an image. -/
theorem c9_dimensions_amended (dl : Str → Option Img) (pu bu : Option Str)
    (wm : Str) (pb : Bytes) (wm2 : Str) (i : Img) (hdec : pilOpen pb = some i) :
    (∃ img, buildThumbnail dl pu bu wm Option.none =
        Except.ok (Bytes.jpegEnc img 92 true) ∧ img.width = 1280 ∧ img.height = 720) ∧
    (∃ img, processCustomThumbnail pb wm2 =
        Except.ok (Bytes.jpegEnc img 92 true) ∧ img.width = 1280 ∧ img.height = 720) := by
  constructor
  · simp only [buildThumbnail]
    rcases pu with _ | u
    · exact ⟨_, rfl, createBannerCard_width .., createBannerCard_height ..⟩
    · by_cases hu : u = []
      · simp only [hu, if_pos rfl]
        exact ⟨_, rfl, createBannerCard_width .., createBannerCard_height ..⟩
      · simp only [if_neg hu]
        cases dl u
        · exact ⟨_, rfl, createBannerCard_width .., createBannerCard_height ..⟩
        · exact ⟨_, rfl, createBannerCard_width .., createBannerCard_height ..⟩
  · simp only [processCustomThumbnail, hdec]
    refine ⟨_, rfl, ?_, ?_⟩
    · by_cases hw : wm2 = [] <;> simp [hw, Img.width, addWatermark_width]
    · by_cases hw : wm2 = [] <;> simp [hw, Img.height, addWatermark_height]

/-- C9 (witness): the amended theorem applied to a failing download
capability, no URLs, and a concrete 100×50 custom image. -/
theorem c9_dimensions_witness :
    (∃ img, buildThumbnail (fun _ => Option.none) Option.none Option.none [] Option.none =
        Except.ok (Bytes.jpegEnc img 92 true) ∧ img.width = 1280 ∧ img.height = 720) ∧
    (∃ img, processCustomThumbnail (Bytes.ext 100 50 7) [] =
        Except.ok (Bytes.jpegEnc img 92 true) ∧ img.width = 1280 ∧ img.height = 720) :=
  c9_dimensions_amended (fun _ => Option.none) Option.none Option.none []
    (Bytes.ext 100 50 7) [] (Img.decode 100 50 7) rfl

/-! ## Claim C6 — template validation -/

/-- C6: `validate_template` accepts a body exactly when the literal
substring `\x7btitle\x7d` occurs in it; and in the template-builder body
step, `handle_text` persists (and activates) the stripped body exactly
when that check passes on it, otherwise it rejects with a user-visible
message — returning normally, with the store, the saved-template set and
the activation all unchanged. -/
theorem c6_template_validation (tpl category rawText : Str) (st : SMState Session)
    (now uid : Nat) (state : Session)
    (hs : getState st now uid = some state)
    (hn : truthySVal (dictGet state (str "awaiting_template_name") SVal.pynone) = false)
    (hb : truthySVal (dictGet state (str "awaiting_template_body") SVal.pynone) = true) :
    (validate_template tpl category = true ↔ (str "{title}") <:+: tpl) ∧
    (pyIn (str "{title}") (pyStrip rawText) = false →
      handleText st now uid rawText =
        Except.ok ⟨st, Option.none, Option.none,
          str "⚠️ Template must contain at least {title}. Try again:"⟩) ∧
    (pyIn (str "{title}") (pyStrip rawText) = true →
      handleText st now uid rawText =
        Except.ok ⟨clearState st uid,
          some (svalAsStr (dictGet state (str "template_name") (SVal.s (str "unnamed"))),
            pyStrip rawText),
          some (svalAsStr (dictGet state (str "template_name") (SVal.s (str "unnamed")))),
          str "✅ Template saved and activated!"⟩) := by
  refine ⟨pyIn_decides_substring _ _, ?_, ?_⟩
  · intro hin
    simp [handleText, hs, hn, hb, hin]
  · intro hin
    simp [handleText, hs, hn, hb, hin]

/-- C6 (witness): the theorem applied to a session awaiting a template
body named `t1`, once with a rejected body (no `\x7btitle\x7d`) and once
with an accepted one. -/
theorem c6_template_witness :
    (validate_template (str "ok {title}") (str "movie") = true ↔
      (str "{title}") <:+: str "ok {title}") ∧
    (pyIn (str "{title}") (pyStrip (str "no token")) = false →
      handleText
        (⟨false, fun _ => Option.none,
          fun k => if k = 1 then
            some [(str "awaiting_template_body", SVal.b true),
                  (str "template_name", SVal.s (str "t1"))]
          else Option.none⟩ : SMState Session) 0 1 (str "no token") =
        Except.ok ⟨⟨false, fun _ => Option.none,
          fun k => if k = 1 then
            some [(str "awaiting_template_body", SVal.b true),
                  (str "template_name", SVal.s (str "t1"))]
          else Option.none⟩, Option.none, Option.none,
          str "⚠️ Template must contain at least {title}. Try again:"⟩) ∧
    (pyIn (str "{title}") (pyStrip (str "no token")) = true →
      handleText
        (⟨false, fun _ => Option.none,
          fun k => if k = 1 then
            some [(str "awaiting_template_body", SVal.b true),
                  (str "template_name", SVal.s (str "t1"))]
          else Option.none⟩ : SMState Session) 0 1 (str "no token") =
        Except.ok ⟨clearState
          (⟨false, fun _ => Option.none,
            fun k => if k = 1 then
              some [(str "awaiting_template_body", SVal.b true),
                    (str "template_name", SVal.s (str "t1"))]
            else Option.none⟩ : SMState Session) 1,
          some (svalAsStr (dictGet
            [(str "awaiting_template_body", SVal.b true),
             (str "template_name", SVal.s (str "t1"))]
            (str "template_name") (SVal.s (str "unnamed"))), pyStrip (str "no token")),
          some (svalAsStr (dictGet
            [(str "awaiting_template_body", SVal.b true),
             (str "template_name", SVal.s (str "t1"))]
            (str "template_name") (SVal.s (str "unnamed")))),
          str "✅ Template saved and activated!"⟩) :=
  c6_template_validation (str "ok {title}") (str "movie") (str "no token") _ 0 1
    [(str "awaiting_template_body", SVal.b true), (str "template_name", SVal.s (str "t1"))]
    rfl (by decide) (by decide)

/-! ## Claim C5 — no unresolved placeholders survive `render`

The key invariant: after the cleanup pass of `_substitute`, every
remaining `'{'` is either never followed by a `'}'`, or is immediately
followed by one (the empty braces the cleanup regex cannot match, since
its body class requires at least one character).  The invariant is
preserved by the newline-collapsing and stripping passes because both
only delete non-brace characters, and deleting characters can neither
put a non-`'}'` gap between an adjacent `'{'`/`'}'` pair nor introduce a
`'}'` where none existed. -/

/-- Every `'{'` in `s` is followed by no `'}'` at all or immediately by
a `'}'` — equivalently, `s` contains no substring of the placeholder
shape `'{'`, one or more non-`'}'` characters, `'}'`. -/
def NoOpenToken (s : Str) : Prop :=
  ∀ pre post : Str, s = pre ++ '{' :: post → '}' ∉ post ∨ ∃ t, post = '}' :: t

theorem noOpenToken_nil : NoOpenToken [] := by
  intro pre post h
  exact absurd h (by simp)

theorem noOpenToken_of_not_mem {s : Str} (h : '}' ∉ s) : NoOpenToken s := by
  intro pre post hdec
  left
  intro hmem
  exact h (hdec ▸ List.mem_append.mpr (Or.inr (List.mem_cons_of_mem _ hmem)))

theorem NoOpenToken.tail {c : Char} {s : Str} (h : NoOpenToken (c :: s)) :
    NoOpenToken s := by
  intro pre post hdec
  exact h (c :: pre) post (by simp [hdec])

theorem noOpenToken_cons {c : Char} {s : Str} (hc : ¬ c = '{') (h : NoOpenToken s) :
    NoOpenToken (c :: s) := by
  intro pre post hdec
  cases pre with
  | nil =>
    simp only [List.nil_append, List.cons.injEq] at hdec
    exact absurd hdec.1 hc
  | cons p pre' =>
    simp only [List.cons_append, List.cons.injEq] at hdec
    exact h pre' post hdec.2

theorem noOpenToken_lb_of_not_mem {s : Str} (hnb : '}' ∉ s) (h : NoOpenToken s) :
    NoOpenToken ('{' :: s) := by
  intro pre post hdec
  cases pre with
  | nil =>
    simp only [List.nil_append, List.cons.injEq, true_and] at hdec
    left
    exact hdec ▸ hnb
  | cons p pre' =>
    simp only [List.cons_append, List.cons.injEq] at hdec
    exact h pre' post hdec.2

theorem noOpenToken_lb_rb {s : Str} (h : NoOpenToken s) :
    NoOpenToken ('{' :: '}' :: s) := by
  intro pre post hdec
  cases pre with
  | nil =>
    simp only [List.nil_append, List.cons.injEq, true_and] at hdec
    exact Or.inr ⟨s, hdec.symm⟩
  | cons p pre' =>
    simp only [List.cons_append, List.cons.injEq] at hdec
    obtain ⟨-, hrest⟩ := hdec
    cases pre' with
    | nil => simp at hrest
    | cons q pre'' =>
      simp only [List.cons_append, List.cons.injEq] at hrest
      exact h pre'' post hrest.2

theorem findRBrace_none : ∀ {s : Str}, findRBrace s = Option.none → '}' ∉ s := by
  intro s
  induction s with
  | nil => intro _ h; simp at h
  | cons c cs ih =>
    intro h
    simp only [findRBrace] at h
    by_cases hc : c = '}'
    · rw [if_pos hc] at h
      exact absurd h (by simp)
    · rw [if_neg hc] at h
      cases hfr : findRBrace cs with
      | some pr =>
        rw [hfr] at h
        exact absurd h (by simp)
      | none =>
        intro hmem
        rcases List.mem_cons.mp hmem with h1 | h1
        · exact hc h1.symm
        · exact ih hfr h1

theorem findRBrace_some : ∀ {s p r : Str}, findRBrace s = some (p, r) →
    s = p ++ '}' :: r ∧ '}' ∉ p := by
  intro s
  induction s with
  | nil => intro p r h; simp [findRBrace] at h
  | cons c cs ih =>
    intro p r h
    simp only [findRBrace] at h
    by_cases hc : c = '}'
    · rw [if_pos hc] at h
      simp only [Option.some.injEq, Prod.mk.injEq] at h
      obtain ⟨hp, hr⟩ := h
      subst hp
      subst hr
      simp [hc]
    · rw [if_neg hc] at h
      cases hfr : findRBrace cs with
      | none =>
        rw [hfr] at h
        exact absurd h (by simp)
      | some pr =>
        obtain ⟨p1, r1⟩ := pr
        rw [hfr] at h
        simp only [Option.some.injEq, Prod.mk.injEq] at h
        obtain ⟨hp, hr⟩ := h
        obtain ⟨hdec, hnm⟩ := ih hfr
        subst hp
        subst hr
        constructor
        · simp [hdec]
        · intro hmem
          rcases List.mem_cons.mp hmem with h1 | h1
          · exact hc h1.symm
          · exact hnm h1

theorem scanGo_some_none : ∀ {s : Str}, findRBrace s = Option.none →
    ∀ buf : Str, scanGo (some buf) s = '{' :: (buf ++ s) := by
  intro s
  induction s with
  | nil => intro _ buf; simp [scanGo]
  | cons c cs ih =>
    intro h buf
    simp only [findRBrace] at h
    by_cases hc : c = '}'
    · rw [if_pos hc] at h
      exact absurd h (by simp)
    · rw [if_neg hc] at h
      cases hfr : findRBrace cs with
      | some pr =>
        rw [hfr] at h
        exact absurd h (by simp)
      | none =>
        rw [show scanGo (some buf) (c :: cs) = scanGo (some (buf ++ [c])) cs from by
          simp [scanGo, hc]]
        rw [ih hfr (buf ++ [c])]
        simp

theorem scanGo_some_some : ∀ {s p r : Str}, findRBrace s = some (p, r) →
    ∀ buf : Str, scanGo (some buf) s =
      if buf ++ p = [] then '{' :: '}' :: scanGo Option.none r
      else scanGo Option.none r := by
  intro s
  induction s with
  | nil => intro p r h _; simp [findRBrace] at h
  | cons c cs ih =>
    intro p r h buf
    simp only [findRBrace] at h
    by_cases hc : c = '}'
    · rw [if_pos hc] at h
      simp only [Option.some.injEq, Prod.mk.injEq] at h
      obtain ⟨hp, hr⟩ := h
      subst hp
      subst hr
      subst hc
      simp [scanGo]
    · rw [if_neg hc] at h
      cases hfr : findRBrace cs with
      | none =>
        rw [hfr] at h
        exact absurd h (by simp)
      | some pr =>
        obtain ⟨p1, r1⟩ := pr
        rw [hfr] at h
        simp only [Option.some.injEq, Prod.mk.injEq] at h
        obtain ⟨hp, hr⟩ := h
        subst hp
        subst hr
        rw [show scanGo (some buf) (c :: cs) = scanGo (some (buf ++ [c])) cs from by
          simp [scanGo, hc]]
        rw [ih hfr (buf ++ [c])]
        rw [if_neg (by simp), if_neg (by simp)]

theorem noOpenToken_scanGo_none : ∀ (n : Nat) (s : Str), s.length ≤ n →
    NoOpenToken (scanGo Option.none s) := by
  intro n
  induction n with
  | zero =>
    intro s hs
    have hnil : s = [] := List.eq_nil_of_length_eq_zero (Nat.le_zero.mp hs)
    subst hnil
    simpa [scanGo] using noOpenToken_nil
  | succ n ih =>
    intro s hs
    cases s with
    | nil => simpa [scanGo] using noOpenToken_nil
    | cons c cs =>
      by_cases hc : c = '{'
      · subst hc
        rw [show scanGo Option.none ('{' :: cs) = scanGo (some []) cs from by
          simp [scanGo]]
        cases hfr : findRBrace cs with
        | none =>
          rw [scanGo_some_none hfr []]
          simp only [List.nil_append]
          have hnb := findRBrace_none hfr
          exact noOpenToken_lb_of_not_mem hnb (noOpenToken_of_not_mem hnb)
        | some pr =>
          obtain ⟨p, r⟩ := pr
          obtain ⟨hdec, hnp⟩ := findRBrace_some hfr
          have hr : r.length ≤ n := by
            subst hdec
            simp only [List.length_cons, List.length_append, List.length_cons] at hs
            omega
          rw [scanGo_some_some hfr []]
          by_cases hp : p = []
          · rw [if_pos (by simp [hp])]
            exact noOpenToken_lb_rb (ih r hr)
          · rw [if_neg (by simp [hp])]
            exact ih r hr
      · rw [show scanGo Option.none (c :: cs) = c :: scanGo Option.none cs from by
          simp [scanGo, hc]]
        have hcs : cs.length ≤ n := by
          simp only [List.length_cons] at hs
          omega
        exact noOpenToken_cons hc (ih cs hcs)

/-- The cleanup pass establishes the invariant. -/
theorem noOpenToken_scanStrip (s : Str) : NoOpenToken (scanStrip s) :=
  noOpenToken_scanGo_none s.length s le_rfl

/-- The invariant transfers down any sublist that keeps every brace. -/
theorem noOpenToken_of_sublist {t s : Str} (hsub : List.Sublist t s) :
    t.count '{' = s.count '{' → t.count '}' = s.count '}' →
    NoOpenToken s → NoOpenToken t := by
  induction hsub with
  | slnil => intro _ _ h; exact h
  | @cons t s a hsub ih =>
    intro h1 h2 hQ
    have hle1 := hsub.count_le '{'
    have hle2 := hsub.count_le '}'
    have ha1 : ¬ a = '{' := by
      intro ha
      subst ha
      rw [List.count_cons_self] at h1
      omega
    have ha2 : ¬ a = '}' := by
      intro ha
      subst ha
      rw [List.count_cons_self] at h2
      omega
    rw [List.count_cons_of_ne (fun h => ha1 h.symm)] at h1
    rw [List.count_cons_of_ne (fun h => ha2 h.symm)] at h2
    exact ih h1 h2 hQ.tail
  | @cons₂ t s a hsub ih =>
    intro h1 h2 hQ
    have h1' : t.count '{' = s.count '{' := by
      rw [List.count_cons, List.count_cons] at h1
      omega
    have h2' : t.count '}' = s.count '}' := by
      rw [List.count_cons, List.count_cons] at h2
      omega
    have hQt := ih h1' h2' hQ.tail
    intro pre post hdec
    cases pre with
    | nil =>
      simp only [List.nil_append, List.cons.injEq] at hdec
      obtain ⟨ha, hpost⟩ := hdec
      subst ha
      rcases hQ [] s (by simp) with hno | ⟨s', hs'⟩
      · left
        rw [← hpost]
        exact List.count_eq_zero.mp (by
          rw [h2']
          exact List.count_eq_zero.mpr hno)
      · subst hs'
        cases hsub with
        | cons _ h' =>
          exfalso
          have := h'.count_le '}'
          rw [List.count_cons_self] at h2'
          omega
        | cons₂ _ h' =>
          right
          exact ⟨_, hpost.symm⟩
    | cons p pre' =>
      simp only [List.cons_append, List.cons.injEq] at hdec
      exact hQt pre' post hdec.2

/-- `collapseGo n s` is a sublist of the pending newline run followed by
the rest of the input. -/
theorem collapseGo_sublist : ∀ (s : Str) (n : Nat),
    List.Sublist (collapseGo n s) (List.replicate n '\n' ++ s) := by
  intro s
  induction s with
  | nil =>
    intro n
    simp only [collapseGo, List.append_nil]
    split
    · exact (List.replicate_sublist_replicate '\n').mpr (by omega)
    · exact List.Sublist.refl _
  | cons c cs ih =>
    intro n
    by_cases hc : c = '\n'
    · subst hc
      rw [show collapseGo n ('\n' :: cs) = collapseGo (n + 1) cs from by
        simp [collapseGo]]
      have h := ih (n + 1)
      rw [List.replicate_succ', List.append_assoc] at h
      simpa using h
    · rw [show collapseGo n (c :: cs) =
          List.replicate (if 3 ≤ n then 2 else n) '\n' ++ (c :: collapseGo 0 cs) from by
        simp [collapseGo, hc]]
      refine List.Sublist.append ?_ ?_
      · split
        · exact (List.replicate_sublist_replicate '\n').mpr (by omega)
        · exact List.Sublist.refl _
      · exact List.Sublist.cons₂ c (by simpa using ih 0)

/-- Newline collapsing never deletes a non-newline character. -/
theorem collapseGo_count {a : Char} (ha : ¬ a = '\n') : ∀ (s : Str) (n : Nat),
    (collapseGo n s).count a = s.count a := by
  have hne : ('\n' == a) = false := by
    simp only [beq_eq_false_iff_ne, ne_eq]
    exact fun h => ha h.symm
  intro s
  induction s with
  | nil =>
    intro n
    simp only [collapseGo]
    rw [List.count_replicate, hne]
    rfl
  | cons c cs ih =>
    intro n
    by_cases hc : c = '\n'
    · subst hc
      rw [show collapseGo n ('\n' :: cs) = collapseGo (n + 1) cs from by
        simp [collapseGo]]
      rw [ih (n + 1), List.count_cons_of_ne ha]
    · rw [show collapseGo n (c :: cs) =
          List.replicate (if 3 ≤ n then 2 else n) '\n' ++ (c :: collapseGo 0 cs) from by
        simp [collapseGo, hc]]
      rw [List.count_append, List.count_replicate, hne, List.count_cons,
        List.count_cons, ih 0]
      simp

/-- `dropWhile` never deletes a character outside the dropped class. -/
theorem count_dropWhile_eq {p : Char → Bool} {a : Char} (ha : p a = false) :
    ∀ l : Str, (l.dropWhile p).count a = l.count a := by
  intro l
  induction l with
  | nil => rfl
  | cons c cs ih =>
    by_cases hc : p c = true
    · rw [List.dropWhile_cons, if_pos hc, ih,
        List.count_cons_of_ne (fun h => by rw [h] at ha; rw [ha] at hc; exact Bool.noConfusion hc)]
    · rw [List.dropWhile_cons, if_neg hc]

/-- Stripping only removes characters from the two ends. -/
theorem pyStrip_sublist (s : Str) : List.Sublist (pyStrip s) s := by
  unfold pyStrip
  have h1 : List.Sublist (s.dropWhile isPySpace) s := List.dropWhile_sublist _
  have h2 : List.Sublist ((s.dropWhile isPySpace).reverse.dropWhile isPySpace)
      (s.dropWhile isPySpace).reverse := List.dropWhile_sublist _
  have h3 := h2.reverse
  rw [List.reverse_reverse] at h3
  exact h3.trans h1

/-- Stripping removes only whitespace characters. -/
theorem pyStrip_count {a : Char} (ha : isPySpace a = false) (s : Str) :
    (pyStrip s).count a = s.count a := by
  unfold pyStrip
  rw [List.count_reverse, count_dropWhile_eq ha, List.count_reverse,
    count_dropWhile_eq ha]

/-- The full `_substitute` pipeline leaves no open placeholder. -/
theorem noOpenToken_substitute (template : Str) (tokens : List (Str × PyVal)) :
    NoOpenToken (substitute template tokens) := by
  have h0 : NoOpenToken (scanStrip (replaceTokens tokens template)) :=
    noOpenToken_scanStrip _
  have h1 : NoOpenToken (collapseNL (scanStrip (replaceTokens tokens template))) := by
    refine noOpenToken_of_sublist ?_ ?_ ?_ h0
    · simpa using collapseGo_sublist _ 0
    · exact collapseGo_count (by decide) _ 0
    · exact collapseGo_count (by decide) _ 0
  refine noOpenToken_of_sublist (pyStrip_sublist _) ?_ ?_ h1
  · exact pyStrip_count (by decide) _
  · exact pyStrip_count (by decide) _

/-- C5: for every category, metadata record, template and user settings,
the string returned by `render` contains no remaining placeholder: there
is no substring consisting of `'{'`, one or more non-`'}'` characters,
then `'}'`.  Every mapped token was substituted by the replacement loop
and every leftover brace-delimited placeholder was removed by the
cleanup pass rather than left literal (only inert empty `\x7b\x7d` pairs,
which name no token, can survive). -/
theorem c5_render_no_unresolved (category : Str) (metadata : MetaDict)
    (template : Option Str) (user_settings : MetaDict) (pre mid post : Str)
    (h : render category metadata template user_settings =
      pre ++ '{' :: (mid ++ '}' :: post)) :
    mid = [] ∨ '}' ∈ mid := by
  have hQ : NoOpenToken (render category metadata template user_settings) := by
    unfold render
    exact noOpenToken_substitute _ _
  rcases hQ pre (mid ++ '}' :: post) h with hno | ⟨t, ht⟩
  · exact absurd (List.mem_append.mpr (Or.inr (List.mem_cons_self _ _))) hno
  · cases mid with
    | nil => exact Or.inl rfl
    | cons m ms =>
      right
      simp only [List.cons_append, List.cons.injEq] at ht
      simp [ht.1]

/-- C5 (witness): the theorem applied to the template `a\x7b\x7db` (whose
inert empty braces survive rendering), at the decomposition with the
empty middle. -/
theorem c5_render_witness : ([] : Str) = [] ∨ '}' ∈ ([] : Str) :=
  c5_render_no_unresolved (str "movie") [] (some (str "a" ++ '{' :: '}' :: str "b")) []
    (str "a") [] (str "b") (by decide)

/-! ## Claims C1 and C2 — the `changeTemplate` transition -/

theorem find?_set_mem {V : Type} (k : Str) (v : V) :
    ∀ d : List (Str × V), d.any (fun p => decide (p.1 = k)) = true →
      (d.map (fun p => if p.1 = k then (k, v) else p)).find?
        (fun p => decide (p.1 = k)) = some (k, v) := by
  intro d
  induction d with
  | nil => intro h; simp at h
  | cons q ds ih =>
    intro h
    by_cases hq : q.1 = k
    · simp only [List.map_cons, if_pos hq]
      rw [List.find?_cons_of_pos _ (by simp)]
    · simp only [List.map_cons, if_neg hq]
      rw [List.find?_cons_of_neg _ (by simp [hq])]
      apply ih
      rw [List.any_cons] at h
      rwa [show (decide (q.1 = k)) = false from by simp [hq], Bool.false_or] at h

theorem find?_set_ne {V : Type} (k' k : Str) (v : V) (hne : ¬ k' = k) :
    ∀ d : List (Str × V),
      (d.map (fun p => if p.1 = k' then (k', v) else p)).find?
          (fun p => decide (p.1 = k)) =
        d.find? (fun p => decide (p.1 = k)) := by
  intro d
  induction d with
  | nil => rfl
  | cons q ds ih =>
    by_cases hq : q.1 = k'
    · simp only [List.map_cons, if_pos hq]
      rw [List.find?_cons_of_neg _ (by simp [hne]),
        List.find?_cons_of_neg _ (by simp [hq, hne])]
      exact ih
    · simp only [List.map_cons, if_neg hq]
      by_cases hqk : q.1 = k
      · rw [List.find?_cons_of_pos _ (by simp [hqk]),
          List.find?_cons_of_pos _ (by simp [hqk])]
      · rw [List.find?_cons_of_neg _ (by simp [hqk]),
          List.find?_cons_of_neg _ (by simp [hqk])]
        exact ih

/-- Setting a key makes it readable. -/
theorem dictGet_dictSet_self {V : Type} (d : List (Str × V)) (k : Str) (v dflt : V) :
    dictGet (dictSet d k v) k dflt = v := by
  unfold dictSet
  by_cases hmem : d.any (fun p => decide (p.1 = k)) = true
  · rw [if_pos hmem]
    unfold dictGet
    rw [find?_set_mem k v d hmem]
  · rw [if_neg hmem]
    unfold dictGet
    rw [List.find?_append]
    have h0 : d.find? (fun p => decide (p.1 = k)) = Option.none := by
      rw [List.find?_eq_none]
      intro x hx hpx
      exact hmem (List.any_eq_true.mpr ⟨x, hx, hpx⟩)
    rw [h0, List.find?_cons_of_pos _ (by simp)]
    rfl

/-- Setting one key leaves the others unchanged. -/
theorem dictGet_dictSet_ne {V : Type} (d : List (Str × V)) (k' k : Str) (v dflt : V)
    (hne : ¬ k' = k) : dictGet (dictSet d k' v) k dflt = dictGet d k dflt := by
  unfold dictSet
  by_cases hmem : d.any (fun p => decide (p.1 = k')) = true
  · rw [if_pos hmem]
    unfold dictGet
    rw [find?_set_ne k' k v hne d]
  · rw [if_neg hmem]
    unfold dictGet
    rw [List.find?_append]
    rw [show ([((k' : Str), v)].find? (fun p => decide (p.1 = k))) = Option.none from by
      simp [hne]]
    cases d.find? (fun p => decide (p.1 = k)) <;> rfl

/-- Reading back right after an `update_state` yields the merged session
(on either backend; on Redis because `now < now + 600`). -/
theorem getState_updateState_self (st : SMState Session) (now uid : Nat)
    (upd : Session) :
    getState (updateState st now uid upd) now uid =
      some (dictUpdate ((getState st now uid).getD []) upd) := by
  by_cases h : st.redisOk
  · simp only [updateState, setState, getState, h, if_true]
    rw [if_pos (by omega)]
  · simp [updateState, setState, getState, h]

/-- `_build_post` either propagates a thumbnail exception or returns the
freshly built pair, with the caption always rendered from the DB-active
template (`get_active_template`) — never from the session's
`active_template_override` — and both values re-stored in the session. -/
theorem buildPost_cases (st : SMState Session) (now uid : Nat) (settings : MetaDict)
    (templates : List (Str × Str)) (dl : Str → Option Img) (category : Str)
    (sess : Session) :
    (∃ e, buildPost st now uid settings templates dl category sess = Except.error e) ∨
    (∃ tb, buildPost st now uid settings templates dl category sess =
        Except.ok
          (updateState st now uid
            [(str "caption", SVal.s (render category
                (svalAsMeta (dictGet sess (str "meta") (SVal.meta [])))
                (get_active_template settings templates category) settings)),
             (str "thumb_bytes", SVal.bytes tb)],
           tb,
           render category (svalAsMeta (dictGet sess (str "meta") (SVal.meta [])))
             (get_active_template settings templates category) settings)) := by
  cases hE : buildPostThumb dl
      (pyvalAsStr (dictGet settings (str "watermark") (PyVal.vstr [])))
      (svalAsMeta (dictGet sess (str "meta") (SVal.meta [])))
      (dictGet sess (str "custom_image") SVal.pynone) with
  | error e =>
    left
    exact ⟨e, by simp only [buildPost, hE]⟩
  | ok tb =>
    right
    exact ⟨tb, by simp only [buildPost, hE]⟩

/-- C2: the caption rebuilt by the changeTemplate transition's
`_build_post` is rendered with the template returned by
`get_active_template` — the user's DB-stored active template — for every
store, session, tpl name and injected data.  It is therefore NOT the
value just swapped into the session's `active_template_override`: that
key is written by `_on_template_selected` but never read anywhere, so
selecting a template in the preview has no effect on the caption. -/
theorem c2_caption_ignores_override (st : SMState Session) (now uid : Nat)
    (settings : MetaDict) (templates : List (Str × Str)) (dl : Str → Option Img)
    (category : Str) (sess : Session) :
    (∃ e, buildPost st now uid settings templates dl category sess = Except.error e) ∨
    (∃ st' tb, buildPost st now uid settings templates dl category sess =
        Except.ok (st', tb,
          render category (svalAsMeta (dictGet sess (str "meta") (SVal.meta [])))
            (get_active_template settings templates category) settings)) := by
  rcases buildPost_cases st now uid settings templates dl category sess with
    ⟨e, h⟩ | ⟨tb, h⟩
  · exact Or.inl ⟨e, h⟩
  · exact Or.inr ⟨_, tb, h⟩

/-- C1 (amended): the changeTemplate transition rebuilds BOTH the caption
and the rendered image: on a successful transition the session's stored
`thumb_bytes` are the freshly rebuilt thumbnail returned with the
preview (and the stored `caption` the freshly rendered one) — not, in
general, the previously stored bytes. -/
theorem c1_change_template_rebuilds (st : SMState Session) (now uid : Nat)
    (tplName : Str) (settings : MetaDict) (templates : List (Str × Str))
    (dl : Str → Option Img) (category : Str) :
    (∃ e, onTemplateSelected st now uid tplName settings templates dl category =
      Except.error e) ∨
    (∃ st1, onTemplateSelected st now uid tplName settings templates dl category =
      Except.ok (st1, Option.none)) ∨
    (∃ st2 tb cap,
      onTemplateSelected st now uid tplName settings templates dl category =
        Except.ok (st2, some (tb, cap)) ∧
      (getState st2 now uid).map (fun sess => dictGet sess (str "thumb_bytes") SVal.pynone) =
        some (SVal.bytes tb) ∧
      (getState st2 now uid).map (fun sess => dictGet sess (str "caption") SVal.pynone) =
        some (SVal.s cap)) := by
  cases hgs : getState (overrideStore st now uid tplName templates) now uid with
  | none =>
    right
    left
    exact ⟨overrideStore st now uid tplName templates,
      by simp only [onTemplateSelected, hgs]⟩
  | some sess =>
    rcases buildPost_cases (overrideStore st now uid tplName templates) now uid
        settings templates dl category sess with ⟨e, hb⟩ | ⟨tb, hb⟩
    · left
      exact ⟨e, by simp only [onTemplateSelected, hgs, hb]⟩
    · right
      right
      refine ⟨updateState (overrideStore st now uid tplName templates) now uid
          [(str "caption", SVal.s (render category
              (svalAsMeta (dictGet sess (str "meta") (SVal.meta [])))
              (get_active_template settings templates category) settings)),
           (str "thumb_bytes", SVal.bytes tb)],
        tb,
        render category (svalAsMeta (dictGet sess (str "meta") (SVal.meta [])))
          (get_active_template settings templates category) settings,
        by simp only [onTemplateSelected, hgs, hb], ?_, ?_⟩
      · rw [getState_updateState_self]
        simp only [Option.map_some']
        rw [show ∀ cur : Session, ∀ k1 k2 : Str, ∀ v1 v2 : SVal,
            dictUpdate cur [(k1, v1), (k2, v2)] =
              dictSet (dictSet cur k1 v1) k2 v2 from fun _ _ _ _ _ => rfl]
        rw [dictGet_dictSet_self]
      · rw [getState_updateState_self]
        simp only [Option.map_some']
        rw [show ∀ cur : Session, ∀ k1 k2 : Str, ∀ v1 v2 : SVal,
            dictUpdate cur [(k1, v1), (k2, v2)] =
              dictSet (dictSet cur k1 v1) k2 v2 from fun _ _ _ _ _ => rfl]
        rw [dictGet_dictSet_ne _ _ _ _ _ (by decide), dictGet_dictSet_self]

/-- A concrete `PREVIEW` session: metadata fetched, no custom image, a
previously built caption and thumbnail stored. -/
def exSession : Session :=
  [(str "category", SVal.s (str "movie")),
   (str "search_results", SVal.results [[]]),
   (str "meta", SVal.meta [(str "title", PyVal.vstr (str "T"))]),
   (str "awaiting_thumbnail", SVal.b false),
   (str "custom_image", SVal.pynone),
   (str "caption", SVal.s (str "old caption")),
   (str "thumb_bytes", SVal.bytes (Bytes.junk 0))]

/-- A concrete store (in-memory backend) holding `exSession` for user 1. -/
def exStore : SMState Session :=
  ⟨false, fun _ => Option.none, fun k => if k = 1 then some exSession else Option.none⟩

/-- C1 (counterexample): in the concrete `PREVIEW` session `exSession`
(whose stored thumbnail bytes are `Bytes.junk 0`), after the
`changeTemplate("default")` transition the stored thumbnail bytes are NOT
the previous bytes: `_show_preview` → `_build_post` rebuilt the image
(here the composited placeholder card) and overwrote them, refuting
"the thumbnail bytes after the transition equal the bytes before it". -/
theorem c1_counterexample :
    ¬ ((onTemplateSelected exStore 0 1 (str "default") [] []
          (fun _ => Option.none) (str "movie")).toOption.bind
        (fun r => (getState r.1 0 1).map
          (fun sess => dictGet sess (str "thumb_bytes") SVal.pynone)) =
      some (SVal.bytes (Bytes.junk 0))) := by decide

end AutoPost







